import Mathlib

/-!
Verification development for the learning-platform backend
(user accounts with roles, courses, authorization and validation).

The repository ships the test suite and the database migration; the
controller/service/validator implementation modules are not present in
the source tree, so every operation below is modelled from the
specification (and, where the specification is silent, from the
behaviour the repository's own tests demand), as noted on each
definition.
-/

namespace LearnLite

/-- The closed set of user roles (schema check constraint:
role IN (admin, instructor, student)). -/
inductive Role
  | admin
  | instructor
  | student
deriving DecidableEq, Repr

/-- An authenticated actor: the identity attached to a request. -/
structure Actor where
  id : Nat
  role : Role
deriving DecidableEq, Repr

/-- A course row, as persisted by the courses table of the schema. -/
structure Course where
  id : Nat
  title : String
  description : Option String
  priceCents : Nat
  published : Bool
  instructorId : Nat
  createdAt : Nat
deriving DecidableEq, Repr

/-- Modelled from the spec: the course-visibility policy of the
Authorization Policy component (the policy module itself is absent from
the source tree).  An actor may view a course if the course is
published, or the actor's role is admin, or the actor exists and its id
equals the course's instructorId. -/
def canViewCourse (actor : Option Actor) (c : Course) : Bool :=
  c.published ||
    (match actor with
     | some a => decide (a.role = Role.admin) || decide (a.id = c.instructorId)
     | none => false)

/-- The outcome of the show endpoint; forbidden (403) is a possible
HTTP outcome in general but the visibility policy must never produce
it. -/
inductive ShowOutcome
  | ok (c : Course)
  | notFound
  | forbidden
deriving DecidableEq, Repr

/-- Modelled from the spec: coursesController.show (controller source
absent).  `found` is the row returned by getCourseById.  A missing
course, and a course the actor may not view, are both reported as
not-found; visibility failures must not leak existence. -/
def coursesShow (found : Option Course) (actor : Option Actor) : ShowOutcome :=
  match found with
  | none => ShowOutcome.notFound
  | some c =>
    if canViewCourse actor c then ShowOutcome.ok c else ShowOutcome.notFound

/-- Modelled from the spec: CoursesService.canModifyCourse (service
source absent).  `findCourse` stands for the parameterized lookup
SELECT ... FROM courses WHERE id = courseId.  True iff the course
exists and the actor is an admin, or an instructor owning the
course. -/
def canModifyCourse (findCourse : Nat → Option Course)
    (courseId actorId : Nat) (actorRole : Role) : Bool :=
  match findCourse courseId with
  | none => false
  | some c =>
    decide (actorRole = Role.admin) ||
      (decide (actorRole = Role.instructor) && decide (c.instructorId = actorId))

/-- The loosely-typed input object of createCourse; instructor_id is
optional in the request body. -/
structure CreateCourseData where
  title : String
  description : Option String
  priceCents : Nat
  instructorId : Option Nat
deriving DecidableEq, Repr

/-- Outcome of createCourse: either the typed permission error
(Insufficient permissions to create course) or the created row. -/
inductive CreateResult
  | permissionError
  | created (row : Course)
deriving DecidableEq, Repr

/-- Modelled from the spec: the effective instructor_id resolution
inside CoursesService.createCourse (service source absent):
data.instructor_id when the actor is an admin and the field is
present, else the acting user's id. -/
def effectiveInstructorId (data : CreateCourseData) (actorId : Nat)
    (actorRole : Role) : Nat :=
  match actorRole, data.instructorId with
  | Role.admin, some iid => iid
  | _, _ => actorId

/-- Modelled from the spec: CoursesService.createCourse (service source
absent).  Throws a permission error for a student actor; otherwise
persists a row whose id and createdAt are server-assigned and whose
published flag starts false. -/
def createCourse (data : CreateCourseData) (actorId : Nat)
    (actorRole : Role) (newId newCreatedAt : Nat) : CreateResult :=
  if actorRole = Role.student then
    CreateResult.permissionError
  else
    CreateResult.created
      { id := newId
        title := data.title
        description := data.description
        priceCents := data.priceCents
        published := false
        instructorId := effectiveInstructorId data actorId actorRole
        createdAt := newCreatedAt }

/-- The payload of a signed identity token. -/
structure TokenPayload where
  sub : Nat
  email : String
  role : String
  iat : Nat
  exp : Nat
deriving DecidableEq, Repr

/-- A token as the verifier sees it: either a string that does not
parse as three dot-separated segments, or a payload signed with some
secret. -/
inductive Token
  | malformed (raw : String)
  | signed (payload : TokenPayload) (secret : String)
deriving DecidableEq, Repr

/-- The distinguishable failure kinds of verifyToken: malformed
structure, signature mismatch, and expiry. -/
inductive TokenError
  | malformedToken
  | badSignature
  | expired
deriving DecidableEq, Repr

/-- The private user record held by the auth service. -/
structure User where
  id : Nat
  email : String
  role : String
deriving DecidableEq, Repr

/-- Modelled from the spec: AuthService.generateToken (service source
absent).  Issued at `now`, the payload carries sub = user id and
exp = iat + 24h, and the token is signed with the server secret. -/
def generateToken (secret : String) (now : Nat) (u : User) : Token :=
  Token.signed
    { sub := u.id, email := u.email, role := u.role
      iat := now, exp := now + 86400 }
    secret

/-- Modelled from the spec: AuthService.verifyToken (service source
absent).  Verifies signature and expiry with distinguishable failure
kinds; like the underlying jsonwebtoken library, the signature is
checked before the expiry claim. -/
def verifyToken (secret : String) (now : Nat) :
    Token → Except TokenError TokenPayload
  | Token.malformed _ => Except.error TokenError.malformedToken
  | Token.signed p s =>
    if s ≠ secret then Except.error TokenError.badSignature
    else if p.exp ≤ now then Except.error TokenError.expired
    else Except.ok p

/-- The loosely-typed body of a course-update request; a missing field
is absent from the partial update.  price_cents is taken after
normalization. -/
structure UpdateBody where
  title : Option String
  description : Option String
  priceCents : Option Nat
  instructorId : Option Nat
deriving DecidableEq, Repr

/-- The update set the controller hands to updateCourse: only the keys
present are written; a present description may be normalized to null
(the inner Option). -/
structure UpdateSet where
  title : Option String
  description : Option (Option String)
  priceCents : Option Nat
  instructorId : Option Nat
deriving DecidableEq, Repr

/-- Modelled from the spec: the update-set construction inside
coursesController.update (controller source absent).  A supplied
description that is empty after trim becomes null; the supplied
instructor_id is honored only for an admin actor and silently dropped
otherwise. -/
def buildUpdateSet (body : UpdateBody) (actorRole : Role) : UpdateSet :=
  { title := body.title
    description := body.description.map
      (fun d => if d.trim = "" then none else some d)
    priceCents := body.priceCents
    instructorId :=
      if actorRole = Role.admin then body.instructorId else none }

/-- Modelled from the spec: the effect of CoursesService.updateCourse
on an existing row (service source absent): exactly the keys present in
the update set are overwritten. -/
def applyUpdateSet (c : Course) (u : UpdateSet) : Course :=
  { c with
    title := u.title.getD c.title
    description := u.description.getD c.description
    priceCents := u.priceCents.getD c.priceCents
    instructorId := u.instructorId.getD c.instructorId }

/-- The HTTP status codes the controllers translate errors into. -/
inductive HttpStatus
  | s200
  | s201
  | s400
  | s401
  | s403
  | s404
  | s500
deriving DecidableEq, Repr

/-- The course endpoints of the courses controller. -/
inductive CourseEndpoint
  | index
  | create
  | show
  | update
  | remove
  | publish
  | unpublish
  | overview
deriving DecidableEq, Repr

/-- Modelled from the spec: the authentication/authorization gate each
course endpoint runs before its body (controller source absent; the
remove gate follows the repository's controller tests, which expect
403 for an unauthenticated deletion).  `none` means the request passes
the gate; index, show and overview are public. -/
def courseEndpointGate : CourseEndpoint → Option Actor → Option HttpStatus
  | CourseEndpoint.create, none => some HttpStatus.s401
  | CourseEndpoint.update, none => some HttpStatus.s401
  | CourseEndpoint.publish, none => some HttpStatus.s401
  | CourseEndpoint.unpublish, none => some HttpStatus.s401
  | CourseEndpoint.remove, none => some HttpStatus.s403
  | CourseEndpoint.remove, some a =>
    if a.role = Role.admin then none else some HttpStatus.s403
  | _, _ => none

/-- A JavaScript value as normalizePrice receives it. -/
inductive JSValue
  | num (q : ℚ)
  | nan
  | infinity
  | str (s : String)
  | null
  | undefined
deriving DecidableEq, Repr

/-- The longest leading run of decimal digits and the rest of the
input. -/
def spanDigits : List Char → List Char × List Char
  | [] => ([], [])
  | c :: cs =>
    if c.isDigit then
      let (d, r) := spanDigits cs
      (c :: d, r)
    else ([], c :: cs)

/-- The value of a digit string, most significant digit first. -/
def digitsToNat (ds : List Char) : Nat :=
  ds.foldl (fun acc c => acc * 10 + (c.toNat - 48)) 0

/-- Modelled from the spec: the numeric-string interpretation used by
normalizePrice (validator source absent): digits, optionally followed
by a dot and more digits; everything else is non-numeric.  The parse
yields the exact value i + f / 10^k as the fraction
(i * 10^k + f) / 10^k. -/
def parseDecimalChars (cs : List Char) : Option ℚ :=
  let (intDs, rest) := spanDigits cs
  if intDs = [] then none
  else
    match rest with
    | [] => some (mkRat (digitsToNat intDs) 1)
    | c :: rest2 =>
      if c = '.' then
        let (fracDs, rest3) := spanDigits rest2
        if fracDs = [] ∨ rest3 ≠ [] then none
        else some (mkRat
          (digitsToNat intDs * 10 ^ fracDs.length + digitsToNat fracDs)
          (10 ^ fracDs.length))
      else none

/-- String front-end of the decimal parser. -/
def parseDecimalString (s : String) : Option ℚ :=
  parseDecimalChars s.toList

/-- Math.round of 100·q, rounding halves toward positive infinity:
⌊100·q + 1/2⌋, computed as the floor division
(200·q.num + q.den) / (2·q.den) on the reduced fraction of q. -/
def roundCents (q : ℚ) : ℤ :=
  Int.fdiv (200 * q.num + (q.den : ℤ)) (2 * (q.den : ℤ))

/-- A finite numeric value is kept as-is when it is a whole-cents
(integer) representation, else converted from decimal currency to
cents with round-half-up. -/
def normalizeFiniteNum (q : ℚ) : ℤ :=
  if q.den = 1 then q.num else roundCents q

/-- Modelled from the spec: CourseValidator.normalizePrice (validator
source absent).  Accepts a number or numeric string; returns null for
non-finite, NaN, non-numeric-string, null, or undefined input. -/
def normalizePrice : JSValue → Option ℤ
  | JSValue.num q => some (normalizeFiniteNum q)
  | JSValue.nan => none
  | JSValue.infinity => none
  | JSValue.null => none
  | JSValue.undefined => none
  | JSValue.str s =>
    match parseDecimalString s with
    | some q => some (normalizeFiniteNum q)
    | none => none

/-- A raw query-string parameter: absent, a string, or a number. -/
inductive RawParam
  | absent
  | str (s : String)
  | num (n : ℤ)
deriving DecidableEq, Repr

/-- parseInt semantics on a character list: an optional minus sign,
then the leading digit run; no digits means the parse fails. -/
def parseIntChars : List Char → Option ℤ
  | '-' :: cs =>
    let (ds, _) := spanDigits cs
    if ds = [] then none else some (-(digitsToNat ds : ℤ))
  | cs =>
    let (ds, _) := spanDigits cs
    if ds = [] then none else some (digitsToNat ds : ℤ)

/-- Modelled from the spec: the page/limit parsing inside
CourseValidator.validatePagination (validator source absent): a string
goes through parseInt, a number is used directly, an absent parameter
fails the parse. -/
def parsePageParam : RawParam → Option ℤ
  | RawParam.absent => none
  | RawParam.num n => some n
  | RawParam.str s => parseIntChars s.toList

/-- The normalized pagination pair. -/
structure Pagination where
  page : ℤ
  limit : ℤ
deriving DecidableEq, Repr

/-- Modelled from the spec: CourseValidator.validatePagination
(validator source absent).  Defaults page=1 and limit=10; clamps
page<1 to 1; resets limit to the default 10 when the parse fails, the
value is ≤ 0, or it exceeds 100; never errors. -/
def validatePagination (pageRaw limitRaw : RawParam) : Pagination :=
  { page :=
      match parsePageParam pageRaw with
      | none => 1
      | some v => if v < 1 then 1 else v
    limit :=
      match parsePageParam limitRaw with
      | none => 10
      | some v => if v ≤ 0 ∨ 100 < v then 10 else v }

/-- The loosely-typed body of a register request. -/
structure RegisterBody where
  email : Option String
  password : Option String
  name : Option String
  role : Option String
deriving DecidableEq, Repr

/-- Splits a character list at every occurrence of `sep`. -/
def splitOnChar (sep : Char) : List Char → List (List Char)
  | [] => [[]]
  | c :: cs =>
    let r := splitOnChar sep cs
    if c = sep then [] :: r
    else
      match r with
      | [] => [[c]]
      | h :: t => (c :: h) :: t

/-- Modelled from the spec: the permissive email pattern of the
Validator (validator source absent): exactly one at-sign, a non-empty
local part, and a dot-separated domain with non-empty parts. -/
def validEmail (s : String) : Bool :=
  match splitOnChar '@' s.toList with
  | [l, d] =>
    decide (l ≠ []) &&
      (let ps := splitOnChar '.' d
       decide (2 ≤ ps.length) && ps.all (fun p => decide (p ≠ [])))
  | _ => false

/-- The closed set of role strings a register request may carry. -/
def validRoleString (r : String) : Bool :=
  decide (r = "admin") || decide (r = "instructor") || decide (r = "student")

/-- The outcome of the register operation. -/
inductive RegisterOutcome
  | validationError (message : String)
  | emailExists
  | created (email name roleStored : String)
deriving DecidableEq, Repr

/-- Character-wise lowercasing of a string (the model of
email.toLowerCase). -/
def toLowerStr (s : String) : String :=
  ⟨s.toList.map Char.toLower⟩

/-- The duplicate-email check followed by the INSERT, both on the
lowercased email. -/
def registerInsert (email name role : String)
    (emailTaken : String → Bool) : RegisterOutcome :=
  if emailTaken (toLowerStr email) then RegisterOutcome.emailExists
  else RegisterOutcome.created (toLowerStr email) name role

/-- Modelled from the spec: authController.register (controller source
absent; the spec's registration contract covers the lowercase email,
duplicate-email and validation behaviour, and the role handling
follows the repository's register tests and the schema's student
default).  The endpoint takes no actor: it is public.  `emailTaken`
stands for the SELECT id FROM users WHERE email lookup. -/
def register (body : RegisterBody) (emailTaken : String → Bool) :
    RegisterOutcome :=
  match body.email, body.password, body.name with
  | some email, some password, some name =>
    if validEmail email = false then
      RegisterOutcome.validationError "Invalid email format"
    else if password.length < 6 then
      RegisterOutcome.validationError "Password must be at least 6 characters long"
    else
      (match body.role with
       | some r =>
         if validRoleString r = false then
           RegisterOutcome.validationError "Invalid role. Must be admin, instructor, or student"
         else registerInsert email name r emailTaken
       | none => registerInsert email name "student" emailTaken)
  | _, _, _ =>
    RegisterOutcome.validationError "Email, password, and name are required"

end LearnLite

namespace LearnLite

/-- C1: the show operation returns the course iff it is published, or
the actor is an admin, or the actor exists and owns the course; in
every other case the outcome is not-found, and a forbidden outcome is
never produced. -/
theorem show_visibility (c : Course) (actor : Option Actor) :
    (coursesShow (some c) actor = ShowOutcome.ok c ↔
      c.published = true ∨
        (∃ a, actor = some a ∧ (a.role = Role.admin ∨ a.id = c.instructorId))) ∧
    (coursesShow (some c) actor = ShowOutcome.ok c ∨
      coursesShow (some c) actor = ShowOutcome.notFound) ∧
    coursesShow (some c) actor ≠ ShowOutcome.forbidden := by
  unfold coursesShow canViewCourse
  cases actor with
  | none =>
    cases hp : c.published <;> simp [hp]
  | some a =>
    by_cases hadm : a.role = Role.admin <;>
      by_cases hown : a.id = c.instructorId <;>
      cases hp : c.published <;>
      simp [hp, hadm, hown]

/-- C2: canModifyCourse is true iff the course exists and the actor is
an admin, or an instructor owning the course; it is false for every
student actor and for every non-existent course id. -/
theorem canModifyCourse_spec (findCourse : Nat → Option Course)
    (courseId actorId : Nat) (actorRole : Role) :
    (canModifyCourse findCourse courseId actorId actorRole = true ↔
      ∃ c, findCourse courseId = some c ∧
        (actorRole = Role.admin ∨
          (actorRole = Role.instructor ∧ c.instructorId = actorId))) ∧
    (actorRole = Role.student →
      canModifyCourse findCourse courseId actorId actorRole = false) ∧
    (findCourse courseId = none →
      canModifyCourse findCourse courseId actorId actorRole = false) := by
  unfold canModifyCourse
  cases hc : findCourse courseId with
  | none => simp
  | some c =>
    cases actorRole <;> simp [hc]

/-- A one-course store used to instantiate theorems on concrete
inputs. -/
def sampleStore : Nat → Option Course := fun i =>
  if i = 1 then some ⟨1, "T", none, 0, false, 5, 0⟩ else none

/-- Witness for C2 at a concrete store: the owning instructor may
modify course 1, a student may not, and the missing course id 2 yields
false. -/
theorem canModifyCourse_spec_witness :
    canModifyCourse sampleStore 1 5 Role.instructor = true ∧
    canModifyCourse sampleStore 1 5 Role.student = false ∧
    canModifyCourse sampleStore 2 5 Role.instructor = false :=
  ⟨((canModifyCourse_spec sampleStore 1 5 Role.instructor).1).mpr
      ⟨⟨1, "T", none, 0, false, 5, 0⟩, rfl, Or.inr ⟨rfl, rfl⟩⟩,
   (canModifyCourse_spec sampleStore 1 5 Role.student).2.1 rfl,
   (canModifyCourse_spec sampleStore 2 5 Role.instructor).2.2 rfl⟩

/-- C3: createCourse rejects exactly the student role with the
permission error; every created row carries published = false, the
server-assigned id and createdAt, and an instructor_id equal to
data.instructor_id for an admin actor that supplied it and to the
acting user's id in every other case; and a non-student actor always
gets a created row. -/
theorem createCourse_spec (data : CreateCourseData)
    (actorId newId newCreatedAt : Nat) (actorRole : Role) :
    (createCourse data actorId actorRole newId newCreatedAt =
        CreateResult.permissionError ↔ actorRole = Role.student) ∧
    (∀ row, createCourse data actorId actorRole newId newCreatedAt =
        CreateResult.created row →
      row.published = false ∧ row.id = newId ∧ row.createdAt = newCreatedAt ∧
      row.title = data.title ∧
      row.instructorId =
        (match actorRole, data.instructorId with
         | Role.admin, some iid => iid
         | _, _ => actorId)) ∧
    (actorRole ≠ Role.student →
      ∃ row, createCourse data actorId actorRole newId newCreatedAt =
        CreateResult.created row) := by
  unfold createCourse effectiveInstructorId
  cases actorRole <;> cases data.instructorId <;> simp

/-- Witness for C3: a student is rejected, an admin who supplied
instructor_id 10 creates a row owned by user 10, and an instructor
creates a row owned by itself. -/
theorem createCourse_spec_witness :
    createCourse ⟨"T", none, 100, some 10⟩ 3 Role.student 7 11 =
      CreateResult.permissionError ∧
    (∀ row, createCourse ⟨"T", none, 100, some 10⟩ 1 Role.admin 7 11 =
        CreateResult.created row → row.instructorId = 10) ∧
    (∀ row, createCourse ⟨"T", none, 100, some 10⟩ 5 Role.instructor 7 11 =
        CreateResult.created row →
      row.instructorId = 5 ∧ row.published = false) :=
  ⟨((createCourse_spec ⟨"T", none, 100, some 10⟩ 3 7 11 Role.student).1).mpr rfl,
   fun row h =>
     ((createCourse_spec ⟨"T", none, 100, some 10⟩ 1 7 11 Role.admin).2.1 row h).2.2.2.2,
   fun row h =>
     ⟨((createCourse_spec ⟨"T", none, 100, some 10⟩ 5 7 11 Role.instructor).2.1 row h).2.2.2.2,
      ((createCourse_spec ⟨"T", none, 100, some 10⟩ 5 7 11 Role.instructor).2.1 row h).1⟩⟩

/-- C4: verifying a freshly generated token succeeds, the payload's
sub field equals the user's id, and exp - iat is exactly 86400. -/
theorem generateToken_verify_roundtrip (secret : String) (now : Nat) (u : User) :
    ∃ p, verifyToken secret now (generateToken secret now u) = Except.ok p ∧
      p.sub = u.id ∧ p.exp - p.iat = 86400 := by
  refine ⟨{ sub := u.id, email := u.email, role := u.role,
            iat := now, exp := now + 86400 }, ?_, rfl,
    by show now + 86400 - now = 86400; omega⟩
  unfold verifyToken generateToken
  simp

/-- C5 counterexample: a token whose exp (100) is in the past at
verification time (200) but that was signed with a secret other than
the server's fails with the signature-mismatch kind, not the
expiry-specific kind, refuting the claim's first universal. -/
theorem verifyToken_expired_foreign_counterexample :
    (100 : Nat) ≤ 200 ∧
    verifyToken "server-secret" 200
        (Token.signed ⟨1, "u@example.com", "student", 0, 100⟩ "wrong-secret") =
      Except.error TokenError.badSignature ∧
    verifyToken "server-secret" 200
        (Token.signed ⟨1, "u@example.com", "student", 0, 100⟩ "wrong-secret") ≠
      Except.error TokenError.expired := by
  refine ⟨by omega, ?_, ?_⟩
  · simp [verifyToken]
  · simp [verifyToken]

/-- C5 (amended): a token signed with the server's secret whose exp is
in the past fails with the expiry-specific kind, and a token signed
with any other secret fails with the signature-mismatch kind. -/
theorem verifyToken_error_kinds (secret s : String) (now : Nat) (p : TokenPayload) :
    (s ≠ secret →
      verifyToken secret now (Token.signed p s) =
        Except.error TokenError.badSignature) ∧
    (p.exp ≤ now →
      verifyToken secret now (Token.signed p secret) =
        Except.error TokenError.expired) := by
  constructor
  · intro hs
    simp [verifyToken, hs]
  · intro he
    simp [verifyToken, he]

/-- Witness for the amended C5 at concrete tokens: a foreign-secret
token fails with badSignature and an expired server-signed token fails
with expired. -/
theorem verifyToken_error_kinds_witness :
    verifyToken "server" 200 (Token.signed ⟨1, "e", "student", 0, 100⟩ "wrong") =
      Except.error TokenError.badSignature ∧
    verifyToken "server" 200 (Token.signed ⟨1, "e", "student", 0, 100⟩ "server") =
      Except.error TokenError.expired :=
  ⟨(verifyToken_error_kinds "server" "wrong" 200 ⟨1, "e", "student", 0, 100⟩).1
      (by decide),
   (verifyToken_error_kinds "server" "server" 200 ⟨1, "e", "student", 0, 100⟩).2
      (by decide)⟩

/-- C6: instructor_id from the request body reaches the update set
exactly when the actor is an admin; for every non-admin actor the
field is dropped, the updated row keeps its instructor_id, and the
remaining components of the update set are built exactly as they would
be for an admin, so the update proceeds without an error. -/
theorem update_instructorId_stripped (body : UpdateBody) (actorRole : Role)
    (c : Course) :
    ((buildUpdateSet body actorRole).instructorId =
      if actorRole = Role.admin then body.instructorId else none) ∧
    (actorRole ≠ Role.admin →
      (buildUpdateSet body actorRole).instructorId = none ∧
      (applyUpdateSet c (buildUpdateSet body actorRole)).instructorId =
        c.instructorId ∧
      (buildUpdateSet body actorRole).title = body.title ∧
      (buildUpdateSet body actorRole).priceCents = body.priceCents ∧
      (buildUpdateSet body actorRole).description =
        (buildUpdateSet body Role.admin).description) := by
  unfold buildUpdateSet applyUpdateSet
  by_cases h : actorRole = Role.admin <;> simp [h]

/-- Witness for C6: an instructor-supplied instructor_id 10 is dropped
while the title update survives, and the course keeps owner 5. -/
theorem update_instructorId_stripped_witness :
    (buildUpdateSet ⟨some "Updated", none, none, some 10⟩
        Role.instructor).instructorId = none ∧
    (applyUpdateSet ⟨1, "Course", none, 4999, false, 5, 0⟩
        (buildUpdateSet ⟨some "Updated", none, none, some 10⟩
          Role.instructor)).instructorId = 5 ∧
    (buildUpdateSet ⟨some "Updated", none, none, some 10⟩
        Role.instructor).title = some "Updated" :=
  ⟨((update_instructorId_stripped ⟨some "Updated", none, none, some 10⟩
      Role.instructor ⟨1, "Course", none, 4999, false, 5, 0⟩).2 (by decide)).1,
   ((update_instructorId_stripped ⟨some "Updated", none, none, some 10⟩
      Role.instructor ⟨1, "Course", none, 4999, false, 5, 0⟩).2 (by decide)).2.1,
   ((update_instructorId_stripped ⟨some "Updated", none, none, some 10⟩
      Role.instructor ⟨1, "Course", none, 4999, false, 5, 0⟩).2 (by decide)).2.2.1⟩

/-- C7 counterexample: an unauthenticated course-deletion request is
answered with 403, not with the 401 the claim asserts. -/
theorem remove_unauthenticated_403 :
    courseEndpointGate CourseEndpoint.remove none = some HttpStatus.s403 ∧
    courseEndpointGate CourseEndpoint.remove none ≠ some HttpStatus.s401 := by
  exact ⟨rfl, by decide⟩

/-- C7 (amended): the create, update, publish, and unpublish endpoints
answer an unauthenticated request with 401, while the remove endpoint
answers 403 both for an unauthenticated request and for any
authenticated non-admin actor. -/
theorem course_gate_statuses (e : CourseEndpoint) (a : Actor) :
    ((e = CourseEndpoint.create ∨ e = CourseEndpoint.update ∨
      e = CourseEndpoint.publish ∨ e = CourseEndpoint.unpublish) →
      courseEndpointGate e none = some HttpStatus.s401) ∧
    courseEndpointGate CourseEndpoint.remove none = some HttpStatus.s403 ∧
    (a.role ≠ Role.admin →
      courseEndpointGate CourseEndpoint.remove (some a) =
        some HttpStatus.s403) := by
  refine ⟨?_, rfl, ?_⟩
  · rintro (rfl | rfl | rfl | rfl) <;> rfl
  · intro h
    simp [courseEndpointGate, h]

/-- Witness for the amended C7: create without an actor gives 401,
remove without an actor gives 403, and remove by instructor 5 gives
403. -/
theorem course_gate_statuses_witness :
    courseEndpointGate CourseEndpoint.create none = some HttpStatus.s401 ∧
    courseEndpointGate CourseEndpoint.remove none = some HttpStatus.s403 ∧
    courseEndpointGate CourseEndpoint.remove (some ⟨5, Role.instructor⟩) =
      some HttpStatus.s403 :=
  ⟨(course_gate_statuses CourseEndpoint.create ⟨5, Role.instructor⟩).1
      (Or.inl rfl),
   (course_gate_statuses CourseEndpoint.create ⟨5, Role.instructor⟩).2.1,
   (course_gate_statuses CourseEndpoint.create ⟨5, Role.instructor⟩).2.2
      (by decide)⟩

/-- C8: the exact input/output table of normalizePrice: 4999 ↦ 4999,
49.99 ↦ 4999, "49.99" ↦ 4999, 49.995 ↦ 5000 (round half up), 0 ↦ 0,
and NaN, Infinity, null, undefined and "invalid" each map to null. -/
theorem normalizePrice_table :
    normalizePrice (JSValue.num 4999) = some 4999 ∧
    normalizePrice (JSValue.num (4999 / 100)) = some 4999 ∧
    normalizePrice (JSValue.str "49.99") = some 4999 ∧
    normalizePrice (JSValue.num (9999 / 200)) = some 5000 ∧
    normalizePrice (JSValue.num 0) = some 0 ∧
    normalizePrice JSValue.nan = none ∧
    normalizePrice JSValue.infinity = none ∧
    normalizePrice JSValue.null = none ∧
    normalizePrice JSValue.undefined = none ∧
    normalizePrice (JSValue.str "invalid") = none := by
  have h1 : (4999 / 100 : ℚ) = mkRat 4999 100 := by
    rw [Rat.mkRat_eq_div]; norm_num
  have h2 : (9999 / 200 : ℚ) = mkRat 9999 200 := by
    rw [Rat.mkRat_eq_div]; norm_num
  have h3 : (4999 : ℚ) = mkRat 4999 1 := by
    rw [Rat.mkRat_eq_div]; norm_num
  have h4 : (0 : ℚ) = mkRat 0 1 := by
    rw [Rat.mkRat_eq_div]; norm_num
  refine ⟨?_, ?_, ?_, ?_, ?_, rfl, rfl, rfl, rfl, ?_⟩
  · rw [h3]; decide
  · rw [h1]; decide
  · decide
  · rw [h2]; decide
  · rw [h4]; decide
  · decide

/-- C9: validatePagination is total and never errors; the page is 1
whenever the parse fails or yields a value below 1 and the parsed
value otherwise, the limit is reset to the default 10 whenever the
parse fails, yields a value ≤ 0, or a value above 100, and the result
always satisfies page ≥ 1 and 1 ≤ limit ≤ 100. -/
theorem validatePagination_spec (pageRaw limitRaw : RawParam) :
    1 ≤ (validatePagination pageRaw limitRaw).page ∧
    1 ≤ (validatePagination pageRaw limitRaw).limit ∧
    (validatePagination pageRaw limitRaw).limit ≤ 100 ∧
    (parsePageParam pageRaw = none →
      (validatePagination pageRaw limitRaw).page = 1) ∧
    (∀ v, parsePageParam pageRaw = some v →
      (validatePagination pageRaw limitRaw).page =
        if v < 1 then 1 else v) ∧
    (parsePageParam limitRaw = none →
      (validatePagination pageRaw limitRaw).limit = 10) ∧
    (∀ v, parsePageParam limitRaw = some v →
      (validatePagination pageRaw limitRaw).limit =
        if v ≤ 0 ∨ 100 < v then 10 else v) := by
  refine ⟨?_, ?_, ?_,
    fun h => by simp [validatePagination, h],
    fun v hv => by simp [validatePagination, hv],
    fun h => by simp [validatePagination, h],
    fun v hv => by simp [validatePagination, hv]⟩
  · cases hp : parsePageParam pageRaw with
    | none => simp [validatePagination, hp]
    | some v =>
      simp only [validatePagination, hp]
      split <;> omega
  · cases hl : parsePageParam limitRaw with
    | none => simp [validatePagination, hl]
    | some v =>
      simp only [validatePagination, hl]
      split <;> omega
  · cases hl : parsePageParam limitRaw with
    | none => simp [validatePagination, hl]
    | some v =>
      simp only [validatePagination, hl]
      split <;> omega

/-- Witness for C9 at the spec's examples: empty params give the
defaults, page -5 is clamped to 1, and limit 150 falls back to the
default 10. -/
theorem validatePagination_spec_witness :
    (validatePagination RawParam.absent RawParam.absent).page = 1 ∧
    (validatePagination RawParam.absent RawParam.absent).limit = 10 ∧
    (validatePagination (RawParam.str "-5") (RawParam.str "150")).page = 1 ∧
    (validatePagination (RawParam.str "-5") (RawParam.str "150")).limit = 10 := by
  refine ⟨(validatePagination_spec RawParam.absent RawParam.absent).2.2.2.1 rfl,
    (validatePagination_spec RawParam.absent RawParam.absent).2.2.2.2.2.1 rfl,
    ?_, ?_⟩
  · have h := (validatePagination_spec (RawParam.str "-5")
      (RawParam.str "150")).2.2.2.2.1 (-5) (by decide)
    simpa using h
  · have h := (validatePagination_spec (RawParam.str "-5")
      (RawParam.str "150")).2.2.2.2.2.2 150 (by decide)
    simpa using h

/-- C10: whenever a register request produces a stored user, the
stored role is the request's role field, defaulting to student when
the field is absent; and every request with a valid email, a password
of at least 6 characters, a name, one of the three role strings, and a
fresh email is stored with exactly that role string — the operation
takes no actor, so an unauthenticated caller can register an admin. -/
theorem register_role_spec (body : RegisterBody) (emailTaken : String → Bool) :
    (∀ e n r, register body emailTaken = RegisterOutcome.created e n r →
      r = body.role.getD "student") ∧
    (∀ email password name role,
      body = ⟨some email, some password, some name, some role⟩ →
      validEmail email = true →
      6 ≤ password.length →
      validRoleString role = true →
      emailTaken (toLowerStr email) = false →
      register body emailTaken =
        RegisterOutcome.created (toLowerStr email) name role) := by
  obtain ⟨em, pw, nm, rl⟩ := body
  constructor
  · intro e n r h
    cases em <;> cases pw <;> cases nm <;> cases rl <;>
      simp only [register, registerInsert, Option.getD_some, Option.getD_none] at h ⊢ <;>
      (try split_ifs at h) <;> simp_all
  · intro email password name role hb hemail hlen hrole htaken
    cases hb
    unfold register registerInsert
    simp [hemail, hrole, htaken, Nat.not_lt.mpr hlen]

/-- Witness for C10: the concrete unauthenticated register request
carrying role admin is stored as an admin account, with the email
lowercased. -/
theorem register_role_spec_witness :
    register
      ⟨some "Test@Example.COM", some "password123", some "Test User",
        some "admin"⟩ (fun _ => false) =
      RegisterOutcome.created "test@example.com" "Test User" "admin" := by
  have h := (register_role_spec
    ⟨some "Test@Example.COM", some "password123", some "Test User",
      some "admin"⟩ (fun _ => false)).2
    "Test@Example.COM" "password123" "Test User" "admin"
    rfl (by decide) (by decide) (by decide) rfl
  have he : toLowerStr "Test@Example.COM" = "test@example.com" := by decide
  rw [he] at h
  exact h

end LearnLite
